import Mathlib

/-!
Verification of the PMASW passive-seismic processing library.

Shallow embedding of the repository's Python sources:
`PassiveData.py` (seismic record), `Receivers.py` (receiver array),
`PMASW.py` (parameter-grid engine and energy accumulator) and
`Peaker.py` (dispersion-curve peaker).  Machine floats are modelled by
exact rationals; numpy arrays by lists (numpy guarantees rectangular
shape, so nested lists of equal length stand in for 2-d/3-d arrays);
Python exceptions by an `Except` whose error also carries the object
state at the moment of the raise, since a Python exception does not
roll back attribute writes already performed.
-/

set_option autoImplicit false

deriving instance DecidableEq for Except

/-- The Python exception families raised by the sources, distinguished
the way the code distinguishes them (exception class and message). -/
inductive PErr where
  /-- `ValueError` from a setter's type/sign/ordering validation. -/
  | invalidParameter
  /-- `ValueError` raised by `compute_energy` when the receiver count
  disagrees with the record (`PMASW.py` line 709). -/
  | shapeMismatch
  /-- `ValueError` "Энергия не была посчитана" from `vf` / `ftheta`. -/
  | notComputedYet
  /-- numpy `AxisError`: `np.sum` with an axis beyond the array's rank. -/
  | axisError
  /-- Python / numpy `ZeroDivisionError`. -/
  | zeroDivisionError
  /-- Python `IndexError` (indexing position 0 of an empty array). -/
  | indexError
  /-- `ValueError` from `np.argmax` applied to an empty slice. -/
  | emptyArgmax
  /-- Python `AttributeError`: access to an attribute or method the
  object does not define (`data.get_seismogram()` at `PMASW.py`
  line 703 — `PassiveData` has the `seismogram` property, but no
  `get_seismogram` method). -/
  | attributeError
deriving DecidableEq, Repr

/-- Python `int()` applied to a float: truncation toward zero. -/
def pyInt (q : ℚ) : ℤ :=
  if 0 ≤ q then ⌊q⌋ else ⌈q⌉

/-- Modelled from the spec: Python `round` to the nearest integer with
ties to even, the reading of `round(1/x)` in the spec's round-trip
property (the repository itself never calls `round`). -/
def pyRound (q : ℚ) : ℤ :=
  if q - ⌊q⌋ < 1/2 then ⌊q⌋
  else if 1/2 < q - ⌊q⌋ then ⌊q⌋ + 1
  else if ⌊q⌋ % 2 = 0 then ⌊q⌋ else ⌊q⌋ + 1

/-- Python float `%`: `a % b = a - b*⌊a/b⌋` (sign follows `b`). -/
def pyMod (a b : ℚ) : ℚ := a - b * ⌊a / b⌋

/-- `np.arange(start, stop, step)` for a nonzero step: the values
`start + i*step` for `0 ≤ i < ⌈(stop-start)/step⌉` (empty when that
count is not positive).  A zero step makes numpy raise
`ZeroDivisionError`; every call site below either guards the zero-step
case explicitly or has a validated positive step. -/
def arange (start stop step : ℚ) : List ℚ :=
  (List.range (⌈(stop - start) / step⌉).toNat).map
    (fun (i : ℕ) => start + (i : ℚ) * step)

/-- `.min()` of a non-empty numpy 1-d array (0 as junk value for the
empty array, which the callers' validators exclude). -/
def npMin : List ℚ → ℚ
  | [] => 0
  | h :: t => t.foldl min h

/-- `.max()` of a non-empty numpy 1-d array. -/
def npMax : List ℚ → ℚ
  | [] => 0
  | h :: t => t.foldl max h

/-! ## `PassiveData.py` — the seismic record -/

/-- The attributes of a `PassiveData` object: `_seismogram` (rows =
time samples, columns = channels), `_dt`, `_fs`, and the shape-derived
`_nt` (sample count) and `_nx` (channel count) written by the
`seismogram` setter. -/
structure PassiveDataState where
  seismogram : List (List ℚ)
  dt : ℚ
  fs : ℤ
  nt : ℕ
  nx : ℕ
deriving DecidableEq, Repr

namespace PassiveData

/-- The `dt` setter (`PassiveData.py` lines 69-88): rejects a negative
value with `ValueError` (the guard is `value < 0`, so `0` passes),
commits `_dt = float(value)`, then computes `_fs = int(1 / _dt)` —
which raises `ZeroDivisionError` when the committed `_dt` is zero.
The isinstance number check is satisfied by the `ℚ` argument type. -/
def dt.set (s : PassiveDataState) (value : ℚ) :
    Except (PErr × PassiveDataState) PassiveDataState :=
  if value < 0 then .error (.invalidParameter, s)
  else
    let s1 : PassiveDataState := { s with dt := value }
    if s1.dt = 0 then .error (.zeroDivisionError, s1)
    else .ok { s1 with fs := pyInt (1 / s1.dt) }

/-- The `fs` getter (`PassiveData.py` lines 91-102): recomputes
`int(1 / _dt)` from the stored interval (it does not read `_fs`);
raises `ZeroDivisionError` when `_dt` is zero. -/
def fs.get (s : PassiveDataState) : Except PErr ℤ :=
  if s.dt = 0 then .error .zeroDivisionError
  else .ok (pyInt (1 / s.dt))

/-- The `fs` setter (`PassiveData.py` lines 105-124): rejects a
negative integer (`value < 0`, so `0` passes), commits `_fs = value`,
then computes `_dt = float(1 / _fs)` — `ZeroDivisionError` when the
committed `_fs` is zero.  The isinstance int check is satisfied by the
`ℤ` argument type. -/
def fs.set (s : PassiveDataState) (value : ℤ) :
    Except (PErr × PassiveDataState) PassiveDataState :=
  if value < 0 then .error (.invalidParameter, s)
  else
    let s1 : PassiveDataState := { s with fs := value }
    if s1.fs = 0 then .error (.zeroDivisionError, s1)
    else .ok { s1 with dt := 1 / (s1.fs : ℚ) }

end PassiveData

/-! ## `Receivers.py` — the receiver array -/

/-- The attributes of a `Receivers` object: the X and Y coordinate
arrays (their setters only validate type/shape and copy the data). -/
structure ReceiversState where
  x : List ℚ
  y : List ℚ
deriving DecidableEq, Repr

/-! ## `PMASW.py` — the parameter-grid engine and energy accumulator -/

/-- The module-level constant `PI` of `PMASW.py` (a decimal literal,
kept exact here). -/
def PI : ℚ := 3.1415926535897932384626433832

/-- The `_energy` attribute: either the placeholder `np.array([])`
installed by `__init__` (a 1-dimensional array of size 0) or the
3-dimensional volume `[velocity, frequency, azimuth]` produced by
`compute_energy`. -/
inductive EnergyArr where
  | empty1d : EnergyArr
  | cube : List (List (List ℚ)) → EnergyArr
deriving DecidableEq, Repr

/-- `ndim` of the `_energy` array: `np.array([])` has rank 1 (its
shape is `(0,)`), the computed volume has rank 3. -/
def EnergyArr.ndim : EnergyArr → ℕ
  | .empty1d => 1
  | .cube _ => 3

/-- `np.sum(a, axis=2)` on the 3-d energy volume: sums out the
innermost (azimuth) axis. -/
def sumAxis2 (a : List (List (List ℚ))) : List (List ℚ) :=
  a.map (fun m => m.map List.sum)

/-- Elementwise sum of two 2-d arrays of identical shape. -/
def matAdd (a b : List (List ℚ)) : List (List ℚ) :=
  List.zipWith (List.zipWith (· + ·)) a b

/-- `np.sum(a, axis=0)` on the 3-d energy volume: sums out the
outermost (velocity) axis. -/
def sumAxis0 : List (List (List ℚ)) → List (List ℚ)
  | [] => []
  | m :: rest => rest.foldl matAdd m

/-- Elementwise sum of two 3-d arrays of identical shape
(`energy += ...`). -/
def cubeAdd (a b : List (List (List ℚ))) : List (List (List ℚ)) :=
  List.zipWith matAdd a b

/-- `np.abs` on a 3-d array. -/
def cubeAbs (a : List (List (List ℚ))) : List (List (List ℚ)) :=
  a.map (fun m => m.map (fun r => r.map abs))

/-- `np.zeros((nv, nf, nth))`. -/
def zeros3 (nv nf nth : ℕ) : List (List (List ℚ)) :=
  List.replicate nv (List.replicate nf (List.replicate nth (0 : ℚ)))

/-- The attributes of a `PMASW` object.  `_nt` is declared as the
float `100.` in `__init__` but is immediately overwritten through the
`nt` setter, which admits only positive integers, so it is carried as
`ℕ`.  `_df` does not exist until the first `define_freqs` call; since
the constructor always performs that call before any read, it is
carried as a plain field initialised to `0`. -/
structure PMASWState where
  f_min : ℚ
  v_min : ℚ
  v_step : ℚ
  theta_min : ℚ
  theta_max : ℚ
  theta_step : ℚ
  freqs : List ℚ
  velocities : List ℚ
  thetas : List ℚ
  dt : ℚ
  nt : ℕ
  v_max : ℚ
  f_max : ℚ
  df : ℚ
  energy : EnergyArr
deriving DecidableEq, Repr

namespace PMASW

/-- `define_velocities` (`PMASW.py` lines 539-549):
`np.arange(v_min, v_max + v_step, v_step)`.  The step is validated
positive by its setter and defaults to `10.`, so `arange` applies. -/
def define_velocities (s : PMASWState) : PMASWState :=
  { s with velocities := arange s.v_min (s.v_max + s.v_step) s.v_step }

/-- `define_thetas` (`PMASW.py` lines 592-602):
`np.arange(theta_min, theta_max, theta_step)`.  The azimuth step is
never validated against zero, and a zero step makes `np.arange` raise
`ZeroDivisionError`. -/
def define_thetas (s : PMASWState) :
    Except (PErr × PMASWState) PMASWState :=
  if s.theta_step = 0 then .error (.zeroDivisionError, s)
  else .ok { s with thetas := arange s.theta_min s.theta_max s.theta_step }

/-- `define_freqs` (`PMASW.py` lines 652-664): `_df = 1 / dt / nt`,
then `np.arange(f_min, f_max + _df, _df)`.  `dt` and `nt` are
validated positive by their setters, so the step is positive. -/
def define_freqs (s : PMASWState) : PMASWState :=
  let df := 1 / s.dt / (s.nt : ℚ)
  { s with df := df, freqs := arange s.f_min (s.f_max + df) df }

/-- The `dt` setter (`PMASW.py` lines 126-145): rejects a non-positive
value, then commits and regenerates the frequency grid.  The
isinstance number check is satisfied by the `ℚ` argument type (here
and in every setter below). -/
def dt.set (s : PMASWState) (value : ℚ) :
    Except (PErr × PMASWState) PMASWState :=
  if value ≤ 0 then .error (.invalidParameter, s)
  else .ok (define_freqs { s with dt := value })

/-- The `nt` setter (`PMASW.py` lines 473-493): rejects a non-positive
integer, then commits and regenerates the frequency grid.  The
isinstance int check is satisfied by the `ℤ` argument type. -/
def nt.set (s : PMASWState) (value : ℤ) :
    Except (PErr × PMASWState) PMASWState :=
  if value ≤ 0 then .error (.invalidParameter, s)
  else .ok (define_freqs { s with nt := value.toNat })

/-- The `v_max` setter (`PMASW.py` lines 202-226): rejects a
non-positive value or one not above `v_min`, then commits and
regenerates the velocity grid. -/
def v_max.set (s : PMASWState) (value : ℚ) :
    Except (PErr × PMASWState) PMASWState :=
  if value ≤ 0 then .error (.invalidParameter, s)
  else if value ≤ s.v_min then .error (.invalidParameter, s)
  else .ok (define_velocities { s with v_max := value })

/-- The `v_step` setter (`PMASW.py` lines 243-262): rejects a
non-positive value, then commits and regenerates the velocity grid. -/
def v_step.set (s : PMASWState) (value : ℚ) :
    Except (PErr × PMASWState) PMASWState :=
  if value ≤ 0 then .error (.invalidParameter, s)
  else .ok (define_velocities { s with v_step := value })

/-- The `f_max` setter (`PMASW.py` lines 319-346): rejects a
non-positive value, one above the Nyquist frequency `1/2/dt`, or one
not above `f_min`; then commits and regenerates the frequency grid. -/
def f_max.set (s : PMASWState) (value : ℚ) :
    Except (PErr × PMASWState) PMASWState :=
  if value ≤ 0 then .error (.invalidParameter, s)
  else if 1 / 2 / s.dt < value then .error (.invalidParameter, s)
  else if value ≤ s.f_min then .error (.invalidParameter, s)
  else .ok (define_freqs { s with f_max := value })

/-- The `theta_step` setter (`PMASW.py` lines 441-456): after the
isinstance number check it performs no sign or zero validation; it
commits `_theta_step = PI * (value % 360 / 180)` and then calls
`define_thetas`, whose failure leaves the new step in place. -/
def theta_step.set (s : PMASWState) (value : ℚ) :
    Except (PErr × PMASWState) PMASWState :=
  define_thetas { s with theta_step := PI * (pyMod value 360 / 180) }

/-- The default attribute values written at the top of `__init__`
(`PMASW.py` lines 87-103) before the argument setters run. -/
def init0 : PMASWState where
  f_min := 0
  v_min := 1
  v_step := 10
  theta_min := PI * (0 / 180)
  theta_max := PI * (180 / 180)
  theta_step := PI * (10 / 180)
  freqs := []
  velocities := []
  thetas := []
  dt := 1
  nt := 100
  v_max := 100
  f_max := 100
  df := 0
  energy := .empty1d

/-- The `PMASW` constructor (`PMASW.py` lines 68-109): defaults, then
the `dt`, `nt`, `v_max`, `f_max` setters in that order, then
`define_thetas`. -/
def init (dt0 : ℚ) (nt0 : ℤ) (v_max0 f_max0 : ℚ) :
    Except (PErr × PMASWState) PMASWState := do
  let s1 ← dt.set init0 dt0
  let s2 ← nt.set s1 nt0
  let s3 ← v_max.set s2 v_max0
  let s4 ← f_max.set s3 f_max0
  define_thetas s4

/-- The consecutive whole windows of `nt_window` time samples that the
`compute_energy` loop (`PMASW.py` lines 717-719) slices out of the
seismogram: `range(int(data_length // nt))` iterations, window `i`
being rows `[i*nt, (i+1)*nt)`. -/
def windowsOf (seis : List (List ℚ)) (data_length nt_window : ℕ) :
    List (List (List ℚ)) :=
  (List.range (data_length / nt_window)).map
    (fun i => (seis.drop (i * nt_window)).take nt_window)

/-- The remainder of `compute_energy` as written (`PMASW.py` lines
704-724), parameterised by the external kernel `compute_energy_` from
`fast_pmasw`: the receiver-count guard and the windowed accumulation.
This is dead code in the program — line 703 raises `AttributeError`
before it (see `compute_energy` below) — translated here because it is
part of the source.  Two notes kept from the source text: the local
`seismogram` would hold the record's sample matrix (the `seismogram`
property is the only such attribute `PassiveData` exposes, read here in
its stead); and `data_num_rec` is assigned `data.nt` — the time-sample
count — not the channel count `data.nx`, so the guard compares the
receiver count with the number of samples. -/
def compute_energy_body
    (kern : List (List ℚ) → List ℚ → List ℚ → List ℚ →
      List ℚ → List ℚ → List (List (List ℚ)))
    (s : PMASWState) (data : PassiveDataState) (recv : ReceiversState) :
    Except (PErr × PMASWState) PMASWState :=
  let seismogram := data.seismogram
  let data_length := data.nt
  let data_num_rec := data.nt
  if data_num_rec ≠ recv.x.length then .error (.shapeMismatch, s)
  else
    let energy := (windowsOf seismogram data_length s.nt).foldl
      (fun acc w =>
        cubeAdd acc (cubeAbs (kern w s.freqs s.velocities s.thetas
          recv.x recv.y)))
      (zeros3 s.velocities.length s.freqs.length s.thetas.length)
    .ok { s with energy := .cube energy }

/-- `compute_energy` (`PMASW.py` lines 682-724): its first statement,
`seismogram = data.get_seismogram()` (line 703), calls a method that
`PassiveData` — the documented type of `data` — does not define (the
class exposes the `seismogram` property, and `get_seismogram` occurs
nowhere else in the repository), so Python raises `AttributeError`
here on every call; the receiver check and the window loop of
`compute_energy_body` never run. -/
def compute_energy
    (_kern : List (List ℚ) → List ℚ → List ℚ → List ℚ →
      List ℚ → List ℚ → List (List (List ℚ)))
    (s : PMASWState) (_data : PassiveDataState) (_recv : ReceiversState) :
    Except (PErr × PMASWState) PMASWState :=
  .error (.attributeError, s)

/-- The `vf` property (`PMASW.py` lines 727-747): guards on
`len(_energy.shape) == 0` (rank 0) — a condition the placeholder
`np.array([])` (rank 1) never meets — then returns
`np.sum(_energy, axis=2)`, which on the rank-1 placeholder raises
`AxisError` instead.  The write to the `_en_vel_freq` cache is the
returned value and is not modelled separately. -/
def vf (e : EnergyArr) : Except PErr (List (List ℚ)) :=
  if e.ndim = 0 then .error .notComputedYet
  else
    match e with
    | .empty1d => .error .axisError
    | .cube a => .ok (sumAxis2 a)

/-- The value `np.sum(_energy, axis=0)` stored into the `_en_f_theta`
cache by `ftheta`: axis 0 exists on every non-empty-rank array, so on
the rank-1 placeholder `np.array([])` the sum succeeds and is the
scalar `0.0`, while on the computed volume it is the
frequency-azimuth matrix. -/
inductive Axis0Sum where
  | scalar : ℚ → Axis0Sum
  | mat : List (List ℚ) → Axis0Sum
deriving DecidableEq, Repr

/-- The `ftheta` property (`PMASW.py` lines 750-768): the same rank-0
guard as `vf` (never met, since the placeholder has rank 1), then it
computes `np.sum(_energy, axis=0)` into the `_en_f_theta` cache —
a sum that succeeds even on the rank-1 placeholder, where it is the
scalar `0.0` — but the method body ends without a `return` statement,
so Python returns `None` in both cases.  The result pairs the
returned value (`none`) with the cached value. -/
def ftheta (e : EnergyArr) :
    Except PErr (Option (List (List ℚ)) × Axis0Sum) :=
  if e.ndim = 0 then .error .notComputedYet
  else
    match e with
    | .empty1d => .ok (none, .scalar 0)
    | .cube a => .ok (none, .mat (sumAxis0 a))

end PMASW

/-! ## `Peaker.py` — the dispersion-curve peaker -/

/-- Index of the first minimal element of a non-empty list
(`np.argmin` resolves ties to the lowest index); 0 as junk for the
empty list. -/
def argminIdx (l : List ℚ) : ℕ :=
  (l.foldl
    (fun acc v =>
      if v < acc.2.2 then (acc.1 + 1, acc.1, v)
      else (acc.1 + 1, acc.2.1, acc.2.2))
    ((0 : ℕ), (0 : ℕ), l.headD 0)).2.1

/-- Index of the first maximal element of a non-empty list
(`np.argmax` resolves ties to the lowest index); 0 as junk for the
empty list. -/
def argmaxIdx (l : List ℚ) : ℕ :=
  (l.foldl
    (fun acc v =>
      if acc.2.2 < v then (acc.1 + 1, acc.1, v)
      else (acc.1 + 1, acc.2.1, acc.2.2))
    ((0 : ℕ), (0 : ℕ), l.headD 0)).2.1

/-- `np.clip(v, a_min=lo, a_max=hi)` on a scalar:
`min(hi, max(v, lo))`. -/
def npClip (v lo hi : ℚ) : ℚ := min hi (max v lo)

/-- `scipy.interpolate.interp1d(xs, ys)` evaluated at `t`: piecewise
linear between consecutive knots, the knots assumed in ascending order
(`interp1d` sorts them otherwise) and `t` inside the knot range, which
the call sites guarantee.  Equal consecutive knots would give numpy's
`nan` slope; rational division by zero yields the left value instead,
a case no claim touches. -/
def linterp : List ℚ → List ℚ → ℚ → ℚ
  | x0 :: x1 :: xrest, y0 :: y1 :: yrest, t =>
      if t ≤ x1 then y0 + (t - x0) * (y1 - y0) / (x1 - x0)
      else linterp (x1 :: xrest) (y1 :: yrest) t
  | _, _, _ => 0

/-- The attributes of a `Peaker` object: the guide velocities `_v_p`
and guide frequencies `_f_p` (validated non-empty, 1-d, positive by
their setters) and the two search half-widths.  The `_interpolator`
built in `__init__` is `interp1d(_f_p, _v_p)` and is re-derived from
these fields at evaluation time. -/
structure PeakerState where
  v_p : List ℚ
  f_p : List ℚ
  v_step_low_freq : ℚ
  v_step_high_freq : ℚ
deriving DecidableEq, Repr

namespace Peaker

/-- `peak_dispersuon_curve` (`Peaker.py` lines 243-307), spelling kept
from the source.  Steps, in source order: restrict `freqs` to
`[f_p.min(), f_p.max()]`; build the half-width interpolator over the
anchor pair `f_p[[0, -1]]`; interpolate guide velocities and
half-widths at the restricted frequencies; clip the upper and lower
velocity bounds into `[velocities.min(), velocities.max()]`; resolve
each bound to the nearest velocity index; locate
`f_0 = np.where(freqs == f_p_interp[0])[0][0]` — an `IndexError` when
the restricted set is empty; take the per-frequency `argmax` of the
energy rows between the bound indices (lower inclusive, upper
exclusive; `np.argmax` of an empty slice raises `ValueError`); return
the four sequences. -/
def peak_dispersuon_curve (p : PeakerState) (vf : List (List ℚ))
    (velocities freqs : List ℚ) :
    Except PErr (List ℚ × List ℚ × List ℚ × List ℚ) :=
  let f_p_interp := freqs.filter
    (fun f => decide (npMin p.f_p ≤ f ∧ f ≤ npMax p.f_p))
  let anchors_x := [p.f_p.headD 0, p.f_p.getLastD 0]
  let anchors_y := [p.v_step_low_freq, p.v_step_high_freq]
  let v_p_interp := f_p_interp.map (linterp p.f_p p.v_p)
  let v_step := f_p_interp.map (linterp anchors_x anchors_y)
  let v_p_interp_upper := (v_p_interp.zip v_step).map
    (fun vs => npClip (vs.1 + vs.2) (npMin velocities) (npMax velocities))
  let v_p_interp_lower := (v_p_interp.zip v_step).map
    (fun vs => npClip (vs.1 - vs.2) (npMin velocities) (npMax velocities))
  let upper_indexes := v_p_interp_upper.map
    (fun b => argminIdx (velocities.map (fun v => |v - b|)))
  let lower_indexes := v_p_interp_lower.map
    (fun b => argminIdx (velocities.map (fun v => |v - b|)))
  match f_p_interp.head? with
  | none => .error .indexError
  | some fp0 =>
    let f_0 := freqs.findIdx (fun f => decide (f = fp0))
    do
      let ind_max ← (List.range f_p_interp.length).mapM (fun f_i =>
        let lo := lower_indexes.getD f_i 0
        let hi := upper_indexes.getD f_i 0
        let column := ((vf.drop lo).take (hi - lo)).map
          (fun row => row.getD (f_0 + f_i) 0)
        if column.isEmpty then
          Except.error PErr.emptyArgmax
        else
          Except.ok (argmaxIdx column + lo))
      return (f_p_interp, v_p_interp_lower, v_p_interp_upper,
        ind_max.map (fun i => velocities.getD i 0))

end Peaker

/-! ## Helper lemmas for evaluating the model -/

/-- Characterisation of `arange` with an explicitly named element
count `n`: it is the arithmetic sequence of the first `n` multiples of
the step, offset by the start. -/
theorem arange_eq (start stop step : ℚ) (n : ℕ)
    (h1 : (n : ℚ) - 1 < (stop - start) / step)
    (h2 : (stop - start) / step ≤ (n : ℚ)) :
    arange start stop step =
      (List.range n).map (fun (i : ℕ) => start + (i : ℚ) * step) := by
  unfold arange
  have hc : ⌈(stop - start) / step⌉ = (n : ℤ) := by
    rw [Int.ceil_eq_iff]
    constructor
    · push_cast
      linarith
    · push_cast
      linarith
  rw [hc, Int.toNat_natCast]

/-- `bind` on an `Except.ok` value. -/
theorem ok_bind {ε α β : Type} (a : α) (f : α → Except ε β) :
    (Except.ok a >>= f : Except ε β) = f a := rfl

namespace PMASW

theorem define_freqs_theta_step (s : PMASWState) :
    (define_freqs s).theta_step = s.theta_step := rfl

theorem define_freqs_theta_min (s : PMASWState) :
    (define_freqs s).theta_min = s.theta_min := rfl

theorem define_freqs_theta_max (s : PMASWState) :
    (define_freqs s).theta_max = s.theta_max := rfl

theorem define_freqs_energy (s : PMASWState) :
    (define_freqs s).energy = s.energy := rfl

theorem define_freqs_dt (s : PMASWState) :
    (define_freqs s).dt = s.dt := rfl

theorem define_freqs_nt (s : PMASWState) :
    (define_freqs s).nt = s.nt := rfl

theorem define_freqs_f_min (s : PMASWState) :
    (define_freqs s).f_min = s.f_min := rfl

theorem define_freqs_f_max (s : PMASWState) :
    (define_freqs s).f_max = s.f_max := rfl

theorem define_freqs_v_min (s : PMASWState) :
    (define_freqs s).v_min = s.v_min := rfl

theorem define_freqs_v_max (s : PMASWState) :
    (define_freqs s).v_max = s.v_max := rfl

theorem define_freqs_v_step (s : PMASWState) :
    (define_freqs s).v_step = s.v_step := rfl

theorem define_freqs_velocities (s : PMASWState) :
    (define_freqs s).velocities = s.velocities := rfl

theorem define_freqs_thetas (s : PMASWState) :
    (define_freqs s).thetas = s.thetas := rfl

theorem define_velocities_theta_step (s : PMASWState) :
    (define_velocities s).theta_step = s.theta_step := rfl

theorem define_velocities_theta_min (s : PMASWState) :
    (define_velocities s).theta_min = s.theta_min := rfl

theorem define_velocities_theta_max (s : PMASWState) :
    (define_velocities s).theta_max = s.theta_max := rfl

theorem define_velocities_energy (s : PMASWState) :
    (define_velocities s).energy = s.energy := rfl

theorem define_velocities_dt (s : PMASWState) :
    (define_velocities s).dt = s.dt := rfl

theorem define_velocities_nt (s : PMASWState) :
    (define_velocities s).nt = s.nt := rfl

theorem define_velocities_f_min (s : PMASWState) :
    (define_velocities s).f_min = s.f_min := rfl

theorem define_velocities_f_max (s : PMASWState) :
    (define_velocities s).f_max = s.f_max := rfl

theorem define_velocities_freqs (s : PMASWState) :
    (define_velocities s).freqs = s.freqs := rfl

theorem define_velocities_df (s : PMASWState) :
    (define_velocities s).df = s.df := rfl

theorem define_velocities_thetas (s : PMASWState) :
    (define_velocities s).thetas = s.thetas := rfl

/-- A positive sampling interval passes the `dt` setter's guard. -/
theorem dt_set_ok (s : PMASWState) (v : ℚ) (hv : 0 < v) :
    dt.set s v = .ok (define_freqs { s with dt := v }) := by
  simp [dt.set, not_le.mpr hv]

/-- A positive window length passes the `nt` setter's guard. -/
theorem nt_set_ok (s : PMASWState) (n : ℤ) (hn : 0 < n) :
    nt.set s n = .ok (define_freqs { s with nt := n.toNat }) := by
  simp [nt.set, not_le.mpr hn]

/-- A value above `v_min` (itself positive) passes the `v_max`
setter's guards. -/
theorem v_max_set_ok (s : PMASWState) (v : ℚ) (h0 : 0 < v)
    (h1 : s.v_min < v) :
    v_max.set s v = .ok (define_velocities { s with v_max := v }) := by
  simp [v_max.set, not_le.mpr h0, not_le.mpr h1]

/-- A positive velocity step passes the `v_step` setter's guard. -/
theorem v_step_set_ok (s : PMASWState) (v : ℚ) (hv : 0 < v) :
    v_step.set s v = .ok (define_velocities { s with v_step := v }) := by
  simp [v_step.set, not_le.mpr hv]

/-- A value in `(f_min, Nyquist]` passes the `f_max` setter's
guards. -/
theorem f_max_set_ok (s : PMASWState) (v : ℚ) (h0 : 0 < v)
    (h1 : v ≤ 1 / 2 / s.dt) (h2 : s.f_min < v) :
    f_max.set s v = .ok (define_freqs { s with f_max := v }) := by
  unfold f_max.set
  rw [if_neg (not_le.mpr h0), if_neg (not_lt.mpr h1), if_neg (not_le.mpr h2)]

/-- A nonzero azimuth step makes `define_thetas` succeed. -/
theorem define_thetas_ok (s : PMASWState) (h : s.theta_step ≠ 0) :
    define_thetas s =
      .ok { s with thetas := arange s.theta_min s.theta_max s.theta_step } := by
  simp [define_thetas, h]

end PMASW

/-! ## Concrete fixtures used by the theorems -/

/-- A small engine state: default attributes with one-point grids and
a window length of 2 samples. -/
def c1Engine : PMASWState :=
  { PMASW.init0 with velocities := [1], freqs := [1], thetas := [1], nt := 2 }

/-- A record of 4 time samples on 2 channels. -/
def c1Data : PassiveDataState :=
  { seismogram := [[1, 2], [1, 2], [1, 2], [1, 2]]
    dt := 1, fs := 1, nt := 4, nx := 2 }

/-- A stub external kernel returning the constant 1×1×1 tensor
`[[[2]]]`. -/
def c1Kern : List (List ℚ) → List ℚ → List ℚ → List ℚ → List ℚ →
    List ℚ → List (List (List ℚ)) :=
  fun _ _ _ _ _ _ => [[[2]]]

/-! ## C1 — the shape guard of `compute_energy` -/

/-- C1: the claim says `compute_energy` fails with the shape-mismatch
error exactly when the receiver count differs from the record's
channel count, and accumulates energy when they agree.  In fact every
call raises `AttributeError` at `data.get_seismogram()` (line 703),
before the shape guard — the first conjunct — so the claimed
`ShapeMismatch` failure and the claimed accumulation never happen.
The guard itself is also wrong as written: the remaining two
conjuncts evaluate the unreachable remainder `compute_energy_body` on
a 4-sample × 2-channel record and show it compares the receiver count
with `data.nt`, the time-sample count, rejecting 2 receivers (equal
to the channel count) and accepting 4. -/
theorem c1_attribute_error_preempts_shape_guard :
    (∀ (kern : List (List ℚ) → List ℚ → List ℚ → List ℚ → List ℚ →
        List ℚ → List (List (List ℚ)))
      (s : PMASWState) (data : PassiveDataState) (recv : ReceiversState),
      PMASW.compute_energy kern s data recv =
        .error (.attributeError, s)) ∧
    c1Data.nx = 2 ∧ c1Data.nt = 4 ∧
    PMASW.compute_energy_body c1Kern c1Engine c1Data ⟨[0, 1], [0, 0]⟩ =
      .error (.shapeMismatch, c1Engine) ∧
    PMASW.compute_energy_body c1Kern c1Engine c1Data
      ⟨[0, 1, 2, 3], [0, 0, 0, 0]⟩ =
      .ok { c1Engine with energy := .cube [[[4]]] } := by
  refine ⟨fun kern s data recv => rfl, rfl, rfl, ?_, ?_⟩
  · simp [PMASW.compute_energy_body, c1Data]
  · norm_num [PMASW.compute_energy_body, c1Data, c1Engine, c1Kern,
      PMASW.windowsOf, zeros3, cubeAdd, cubeAbs, matAdd,
      List.range, List.range.loop, List.zipWith]

/-! ## C2 — the generated frequency grid -/

/-- Element `i` of a mapped index range, for `i` in range. -/
theorem getD_range_map (f : ℕ → ℚ) (N i : ℕ) (h : i < N) :
    ((List.range N).map f).getD i 0 = f i := by
  rw [List.getD_eq_getElem?_getD, List.getElem?_map, List.getElem?_range h]
  rfl

/-- C2 (amended): for positive sampling interval and window length the
frequency grid is the arithmetic sequence `f_min + i·Δf` with spacing
`Δf = 1/(dt·nt)`; it contains every such point that is `≤ f_max`, and
every entry is `< f_max + Δf`.  (The original claim — grid running to
`f_max` inclusive and all entries `≤` Nyquist — fails when
`f_max − f_min` is not a multiple of `Δf`; see the counterexample.) -/
theorem c2_frequency_grid_arithmetic (s : PMASWState)
    (hdt : 0 < s.dt) (hnt : 0 < s.nt) :
    (PMASW.define_freqs s).df = 1 / s.dt / (s.nt : ℚ) ∧
    (∀ i : ℕ, i < (PMASW.define_freqs s).freqs.length →
      (PMASW.define_freqs s).freqs.getD i 0 =
        s.f_min + (i : ℚ) * (1 / s.dt / (s.nt : ℚ)) ∧
      (PMASW.define_freqs s).freqs.getD i 0 <
        s.f_max + 1 / s.dt / (s.nt : ℚ)) ∧
    (∀ k : ℕ, s.f_min + (k : ℚ) * (1 / s.dt / (s.nt : ℚ)) ≤ s.f_max →
      k < (PMASW.define_freqs s).freqs.length) := by
  have hntq : (0 : ℚ) < (s.nt : ℚ) := by exact_mod_cast hnt
  have hdf : (0 : ℚ) < 1 / s.dt / (s.nt : ℚ) := by positivity
  set df := 1 / s.dt / (s.nt : ℚ) with hdfdef
  have hfreqs : (PMASW.define_freqs s).freqs =
      (List.range ((⌈(s.f_max + df - s.f_min) / df⌉).toNat)).map
        (fun (i : ℕ) => s.f_min + (i : ℚ) * df) := rfl
  have hlen : (PMASW.define_freqs s).freqs.length =
      (⌈(s.f_max + df - s.f_min) / df⌉).toNat := by
    rw [hfreqs, List.length_map, List.length_range]
  refine ⟨rfl, ?_, ?_⟩
  · intro i hi
    rw [hlen] at hi
    have hgd : (PMASW.define_freqs s).freqs.getD i 0 =
        s.f_min + (i : ℚ) * df := by
      rw [hfreqs]
      exact getD_range_map _ _ _ hi
    refine ⟨hgd, ?_⟩
    rw [hgd]
    have hiz : ((i : ℕ) : ℤ) < ⌈(s.f_max + df - s.f_min) / df⌉ :=
      Int.lt_toNat.mp hi
    have hiq : (i : ℚ) < (s.f_max + df - s.f_min) / df := by
      exact_mod_cast Int.lt_ceil.mp hiz
    have hmul := (lt_div_iff₀ hdf).mp hiq
    linarith
  · intro k hk
    rw [hlen]
    have hkq : (k : ℚ) < (s.f_max + df - s.f_min) / df := by
      rw [lt_div_iff₀ hdf]
      linarith
    have hkz : ((k : ℕ) : ℤ) < ⌈(s.f_max + df - s.f_min) / df⌉ :=
      Int.lt_ceil.mpr (by exact_mod_cast hkq)
    exact Int.lt_toNat.mpr hkz

/-- Witness for C2: the default engine attributes (`dt = 1`,
`nt = 100`) satisfy the hypotheses, giving grid spacing `1/100`. -/
theorem c2_frequency_grid_arithmetic_witness :
    0 < PMASW.init0.dt ∧ 0 < PMASW.init0.nt ∧
    (PMASW.define_freqs PMASW.init0).df =
      1 / PMASW.init0.dt / (PMASW.init0.nt : ℚ) :=
  ⟨by norm_num [PMASW.init0], by norm_num [PMASW.init0],
    (c2_frequency_grid_arithmetic PMASW.init0 (by norm_num [PMASW.init0])
      (by norm_num [PMASW.init0])).1⟩

/-- Counterexample for C2: with sampling interval `1/50`, window
length 3 and `f_min = 0`, the `f_max` setter accepts the Nyquist
frequency `25` itself, and the regenerated grid is
`[0, 50/3, 100/3]` — its last entry exceeds both `f_max` and the
Nyquist frequency `1/(2·dt) = 25`, refuting "from `f_min` to `f_max`
inclusive" and "every entry ≤ Nyquist". -/
theorem c2_counterexample :
    PMASW.f_max.set { PMASW.init0 with dt := 1/50, nt := 3 } 25 =
      .ok { PMASW.init0 with
              dt := 1/50, nt := 3, f_max := 25, df := 50/3,
              freqs := [0, 50/3, 100/3] } ∧
    ¬ ((100 : ℚ)/3 ≤ 1 / (2 * (1/50))) ∧ ((100 : ℚ)/3 ≠ 25) := by
  refine ⟨?_, by norm_num, by norm_num⟩
  rw [PMASW.f_max_set_ok _ _ (by norm_num)
    (by norm_num [PMASW.init0]) (by norm_num [PMASW.init0])]
  simp only [PMASW.define_freqs]
  norm_num [PMASW.init0]
  rw [arange_eq _ _ _ 3 (by norm_num) (by norm_num)]
  norm_num [List.range, List.range.loop]

/-! ## C3 — the two energy reductions -/

/-- Row `j` of a matrix mapped through `List.sum` (out-of-range
positions give the junk value 0 on both sides). -/
theorem rowsum_getD (m : List (List ℚ)) (j : ℕ) :
    (m.map List.sum).getD j 0 = (m.getD j []).sum := by
  induction m generalizing j with
  | nil => simp
  | cons r t ih =>
    cases j with
    | zero => simp
    | succ n =>
      simp only [List.getD_cons_succ]
      exact ih n

/-- Entrywise reading of the azimuth-axis reduction: position `(i, j)`
of `sumAxis2 a` is the sum of row `a[i][j]`. -/
theorem sumAxis2_getD (a : List (List (List ℚ))) (i j : ℕ) :
    ((sumAxis2 a).getD i []).getD j 0 = ((a.getD i []).getD j []).sum := by
  induction a generalizing i with
  | nil => simp [sumAxis2]
  | cons m t ih =>
    cases i with
    | zero => simpa [sumAxis2] using rowsum_getD m j
    | succ i' => simpa [sumAxis2] using ih i'

/-- C3: the exposed velocity-frequency reduction `vf` returns the
elementwise sum of the energy volume over the azimuth axis; but the
frequency-azimuth reduction `ftheta` computes the velocity-axis sum
into its cache and then returns `None` — its body has no `return`
statement — so that reduction is never returned to the caller. -/
theorem c3_vf_sums_azimuth_ftheta_returns_none :
    (∀ (a : List (List (List ℚ))) (i j : ℕ),
      PMASW.vf (.cube a) = .ok (sumAxis2 a) ∧
      ((sumAxis2 a).getD i []).getD j 0 = ((a.getD i []).getD j []).sum) ∧
    PMASW.vf (.cube [[[1, 2], [3, 4]], [[5, 6], [7, 8]]]) =
      .ok [[3, 7], [11, 15]] ∧
    PMASW.ftheta (.cube [[[1, 2], [3, 4]], [[5, 6], [7, 8]]]) =
      .ok (none, .mat [[6, 8], [10, 12]]) := by
  refine ⟨fun a i j => ⟨rfl, sumAxis2_getD a i j⟩, ?_, ?_⟩
  · norm_num [PMASW.vf, EnergyArr.ndim, sumAxis2]
  · norm_num [PMASW.ftheta, EnergyArr.ndim, sumAxis0, matAdd, List.zipWith]

/-! ## C4 — requesting a reduction before any `compute_energy` call -/

/-- C4: on a freshly constructed engine the `_energy` placeholder is
`np.array([])`, whose rank is 1, so the `len(shape) == 0` guard that
would raise the not-computed-yet `ValueError` never fires.  `vf` then
fails — but with a numpy `AxisError` from `np.sum(..., axis=2)` on the
rank-1 placeholder — and `ftheta` does not fail at all: its
`np.sum(..., axis=0)` is a valid axis-0 sum (the scalar `0.0`) and the
property silently returns `None`.  Neither reduction produces the
`NotComputedYet` error the claim names. -/
theorem c4_fresh_engine_vf_axis_error_ftheta_silent_none :
    (PMASW.init (1/50) 3 100 25).map
      (fun s => (s.energy, PMASW.vf s.energy, PMASW.ftheta s.energy)) =
      .ok (.empty1d, .error .axisError, .ok (none, .scalar 0)) ∧
    (Except.error PErr.axisError :
        Except PErr (List (List ℚ))) ≠ .error .notComputedYet ∧
    (Except.ok (none, PMASW.Axis0Sum.scalar 0) :
        Except PErr (Option (List (List ℚ)) × PMASW.Axis0Sum)) ≠
      .error .notComputedYet := by
  refine ⟨?_, by simp, by simp⟩
  simp only [PMASW.init]
  rw [PMASW.dt_set_ok _ _ (by norm_num), ok_bind,
      PMASW.nt_set_ok _ _ (by norm_num), ok_bind,
      PMASW.v_max_set_ok _ _ (by norm_num)
        (by norm_num [PMASW.define_freqs_v_min, PMASW.init0]),
      ok_bind,
      PMASW.f_max_set_ok _ _ (by norm_num)
        (by norm_num [PMASW.define_velocities_dt, PMASW.define_freqs_dt,
              PMASW.init0])
        (by norm_num [PMASW.define_velocities_f_min, PMASW.define_freqs_f_min,
              PMASW.init0]),
      ok_bind,
      PMASW.define_thetas_ok _
        (by norm_num [PMASW.define_freqs_theta_step,
              PMASW.define_velocities_theta_step, PMASW.init0, PI])]
  simp [Except.map, PMASW.define_freqs_energy, PMASW.define_velocities_energy,
        PMASW.init0, PMASW.vf, PMASW.ftheta, EnergyArr.ndim]

/-! ## C5 — peaking with a guide range outside the frequency grid -/

/-- C5 (amended): when every grid frequency lies outside the guide
curve's reference range, the restricted frequency set is empty and
`peak_dispersuon_curve` raises an `IndexError` at
`np.where(freqs == f_p_interp[0])` — it does not return four empty
sequences. -/
theorem c5_empty_restriction_raises_index_error (p : PeakerState)
    (vf : List (List ℚ)) (velocities freqs : List ℚ)
    (h : ∀ f ∈ freqs, ¬(npMin p.f_p ≤ f ∧ f ≤ npMax p.f_p)) :
    Peaker.peak_dispersuon_curve p vf velocities freqs =
      .error .indexError := by
  have hfil : freqs.filter
      (fun f => decide (npMin p.f_p ≤ f ∧ f ≤ npMax p.f_p)) = [] := by
    rw [List.filter_eq_nil_iff]
    intro a ha
    simpa using h a ha
  unfold Peaker.peak_dispersuon_curve
  rw [hfil]
  rfl

/-- Witness for C5: a guide over `[10, 20]` Hz against the grid
`[1, 2, 3]` Hz — every grid frequency is below the guide range. -/
theorem c5_empty_restriction_raises_index_error_witness :
    (∀ f ∈ ([1, 2, 3] : List ℚ),
      ¬(npMin (PeakerState.mk [100, 200] [10, 20] 5 5).f_p ≤ f ∧
        f ≤ npMax (PeakerState.mk [100, 200] [10, 20] 5 5).f_p)) ∧
    Peaker.peak_dispersuon_curve ⟨[100, 200], [10, 20], 5, 5⟩
      [[1]] [100] [1, 2, 3] = .error .indexError :=
  ⟨by intro f hf; fin_cases hf <;> norm_num [npMin, npMax],
    c5_empty_restriction_raises_index_error _ _ _ _
      (by intro f hf; fin_cases hf <;> norm_num [npMin, npMax])⟩

/-- Counterexample for C5: with the guide range `[10, 20]` Hz entirely
above the supplied grid `[1, 2]` Hz, the peak operation raises the
index error instead of returning four empty sequences. -/
theorem c5_counterexample :
    Peaker.peak_dispersuon_curve ⟨[100, 200], [10, 20], 5, 5⟩
      [[1]] [100] [1, 2] = .error .indexError ∧
    Peaker.peak_dispersuon_curve ⟨[100, 200], [10, 20], 5, 5⟩
      [[1]] [100] [1, 2] ≠ .ok ([], [], [], []) := by
  have hfil : ([1, 2] : List ℚ).filter
      (fun f => decide (npMin (PeakerState.mk [100, 200] [10, 20] 5 5).f_p ≤ f ∧
        f ≤ npMax (PeakerState.mk [100, 200] [10, 20] 5 5).f_p)) = [] := by
    rw [List.filter_eq_nil_iff]
    intro a ha
    fin_cases ha <;> norm_num [npMin, npMax]
  have hres : Peaker.peak_dispersuon_curve ⟨[100, 200], [10, 20], 5, 5⟩
      [[1]] [100] [1, 2] = .error .indexError := by
    unfold Peaker.peak_dispersuon_curve
    rw [hfil]
    rfl
  exact ⟨hres, by rw [hres]; simp⟩

/-- A seismic record with sampling interval 1/4 s. -/
def sampleRecord : PassiveDataState :=
  { seismogram := [[0], [0]], dt := 1/4, fs := 4, nt := 2, nx := 1 }

/-- Default engine attributes with a window length of 2 samples. -/
def c8Engine : PMASWState := { PMASW.init0 with nt := 2 }

/-- A record of `2 × 2 + 1` time samples on one channel. -/
def c8Data : PassiveDataState :=
  { seismogram := [[1], [2], [3], [4], [5]]
    dt := 1, fs := 1, nt := 5, nx := 1 }

/-- Five receiver coordinates. -/
def c8Recv : ReceiversState := ⟨[0, 1, 2, 3, 4], [0, 0, 0, 0, 0]⟩

/-- A stub external kernel returning the constant tensor `[[[1]]]`. -/
def c8Kern : List (List ℚ) → List ℚ → List ℚ → List ℚ → List ℚ →
    List ℚ → List (List (List ℚ)) :=
  fun _ _ _ _ _ _ => [[[1]]]

/-! ## C6 — the sampling interval / sampling rate round trip -/

/-- Evaluation rule for the floor of a rational at a named integer. -/
theorem floor_eval (a : ℚ) (z : ℤ) (h1 : (z : ℚ) ≤ a) (h2 : a < z + 1) :
    ⌊a⌋ = z := by
  rw [Int.floor_eq_iff]
  exact ⟨h1, by exact_mod_cast h2⟩

/-- C6 (amended): after reassigning the sampling interval to a
positive `x`, reading the sampling rate yields the truncation
`int(1/x)` — not the rounding the claim states; after reassigning the
sampling rate to a positive integer `y`, reading the interval yields
`1/y` as claimed. -/
theorem c6_roundtrip_truncates (s : PassiveDataState) (x : ℚ) (y : ℤ)
    (hx : 0 < x) (hy : 0 < y) :
    (PassiveData.dt.set s x).map PassiveData.fs.get =
      .ok (.ok (pyInt (1 / x))) ∧
    (PassiveData.fs.set s y).map (fun s' => s'.dt) = .ok (1 / (y : ℚ)) := by
  have hx0 : ¬ (x < 0) := not_lt.mpr hx.le
  have hxne : x ≠ 0 := ne_of_gt hx
  have hy0 : ¬ (y < 0) := not_lt.mpr hy.le
  have hyne : y ≠ 0 := ne_of_gt hy
  constructor
  · simp [PassiveData.dt.set, PassiveData.fs.get, Except.map, hx0, hxne]
  · simp [PassiveData.fs.set, Except.map, hy0, hyne]

/-- Witness for C6: interval `1/2` and rate `4` on a concrete
record. -/
theorem c6_roundtrip_truncates_witness :
    (0 : ℚ) < 1/2 ∧ (0 : ℤ) < 4 ∧
    (PassiveData.dt.set sampleRecord (1/2)).map PassiveData.fs.get =
      .ok (.ok (pyInt (1 / (1/2)))) ∧
    (PassiveData.fs.set sampleRecord 4).map (fun s' => s'.dt) =
      .ok (1 / ((4 : ℤ) : ℚ)) :=
  ⟨by norm_num, by norm_num,
    (c6_roundtrip_truncates sampleRecord (1/2) 4 (by norm_num)
      (by norm_num)).1,
    (c6_roundtrip_truncates sampleRecord (1/2) 4 (by norm_num)
      (by norm_num)).2⟩

/-- Counterexample for C6: after setting the interval to `3/5`, the
rate reads back as `int(5/3) = 1`, while `round(5/3) = 2`. -/
theorem c6_counterexample :
    (PassiveData.dt.set sampleRecord (3/5)).map PassiveData.fs.get =
      .ok (.ok 1) ∧
    pyRound (1 / (3/5 : ℚ)) = 2 ∧ (1 : ℤ) ≠ 2 := by
  have hf : ⌊(5/3 : ℚ)⌋ = 1 := floor_eval _ 1 (by norm_num) (by norm_num)
  have hp : pyInt (5/3 : ℚ) = 1 := by
    rw [pyInt, if_pos (by norm_num), hf]
  refine ⟨?_, ?_, by norm_num⟩
  · norm_num [PassiveData.dt.set, PassiveData.fs.get, Except.map,
      sampleRecord, hp]
  · have h53 : (1 : ℚ) / (3/5) = 5/3 := by norm_num
    rw [h53, pyRound, hf]
    norm_num

/-! ## C7 — assigning a non-positive sampling interval -/

/-- C7: the claim says any non-positive sampling interval is rejected
with the prior state untouched.  The setter's guard is `value < 0`, so
`0` slips through, `_dt = 0.0` is committed, and only then does
`int(1 / _dt)` raise `ZeroDivisionError` — the record is left mutated.
A strictly negative value is rejected before any mutation. -/
theorem c7_zero_interval_mutates_before_failing :
    PassiveData.dt.set sampleRecord 0 =
      .error (.zeroDivisionError, { sampleRecord with dt := 0 }) ∧
    (0 : ℚ) ≠ sampleRecord.dt ∧
    PassiveData.dt.set sampleRecord (-1) =
      .error (.invalidParameter, sampleRecord) := by
  refine ⟨?_, by norm_num [sampleRecord], ?_⟩
  · norm_num [PassiveData.dt.set]
  · norm_num [PassiveData.dt.set]

/-! ## C8 — kernel invocations per record length -/

/-- C8: the claim promises exactly `k` kernel invocations on a record
of `k·n + r` samples (window length `n`, `0 ≤ r < n`).  The loop as
written would indeed slice `⌊samples / n⌋` whole windows — the third
conjunct computes that count, 2, for the unreachable remainder on a
`2·2 + 1`-sample record with window length 2 — but `compute_energy`
raises `AttributeError` at `data.get_seismogram()` (line 703) before
slicing any window, so the external kernel is invoked zero times,
never `k`. -/
theorem c8_attribute_error_before_any_window :
    PMASW.compute_energy c8Kern c8Engine c8Data c8Recv =
      .error (.attributeError, c8Engine) ∧
    c8Data.nt = 2 * c8Engine.nt + 1 ∧
    (PMASW.windowsOf c8Data.seismogram c8Data.nt c8Engine.nt).length = 2 :=
  ⟨rfl, rfl, rfl⟩

/-! ## C9 — setting `v_step` regenerates only the velocity grid -/

/-- C9: a valid (positive) `v_step` assignment succeeds, rebuilds the
velocity grid from the bounds, and leaves both the frequency grid and
the azimuth grid exactly as they were. -/
theorem c9_v_step_regenerates_only_velocities (s : PMASWState) (v : ℚ)
    (hv : 0 < v) :
    PMASW.v_step.set s v =
      .ok (PMASW.define_velocities { s with v_step := v }) ∧
    (PMASW.define_velocities { s with v_step := v }).freqs = s.freqs ∧
    (PMASW.define_velocities { s with v_step := v }).thetas = s.thetas ∧
    (PMASW.define_velocities { s with v_step := v }).velocities =
      arange s.v_min (s.v_max + v) v := by
  refine ⟨PMASW.v_step_set_ok s v hv, ?_, ?_, ?_⟩
  · rw [PMASW.define_velocities_freqs]
  · rw [PMASW.define_velocities_thetas]
  · simp [PMASW.define_velocities]

/-- Witness for C9: step `5` on the default-attribute engine state. -/
theorem c9_v_step_regenerates_only_velocities_witness :
    (0 : ℚ) < 5 ∧
    (PMASW.define_velocities { PMASW.init0 with v_step := 5 }).freqs =
      PMASW.init0.freqs :=
  ⟨by norm_num,
    (c9_v_step_regenerates_only_velocities PMASW.init0 5 (by norm_num)).2.1⟩

/-! ## C10 — the azimuth-step setter and multiples of 360° -/

/-- C10: the azimuth-step setter carries no sign or zero validation;
for any value that is a whole multiple of 360° the reduction
`value % 360` is 0, so the stored radian step becomes 0 — committed
before grid regeneration — and the `np.arange` call inside
`define_thetas` then raises `ZeroDivisionError`, leaving the zero step
in place. -/
theorem c10_theta_step_commits_zero_then_fails (s : PMASWState) (v : ℚ)
    (hv : pyMod v 360 = 0) :
    PMASW.theta_step.set s v =
      .error (.zeroDivisionError, { s with theta_step := 0 }) := by
  unfold PMASW.theta_step.set PMASW.define_thetas
  rw [hv]
  norm_num

/-- Witness for C10: the step value 360° itself. -/
theorem c10_theta_step_commits_zero_then_fails_witness :
    pyMod 360 360 = 0 ∧
    PMASW.theta_step.set PMASW.init0 360 =
      .error (.zeroDivisionError, { PMASW.init0 with theta_step := 0 }) :=
  ⟨by norm_num [pyMod],
    c10_theta_step_commits_zero_then_fails PMASW.init0 360
      (by norm_num [pyMod])⟩
